import Mathlib

/-!
# AgentGuard decision engine — shallow embedding

A Lean model of the GuardSkills/AgentGuard security policy engine:

* the exec-command detector (`src/action/detectors/exec.ts`),
* the action scanner dispatcher and per-type handlers
  (`src/action/scanner.ts`, shipped here inside `adapters/claude-code.ts`),
* the hook decision engine (`adapters/engine.ts`) and its protection-level
  helpers (`adapters/common.ts`),
* the registry storage record operations (`registry/storage.ts`).

TypeScript strings stay `String`, arrays become `List`, optional fields
become `Option`, and the few regular expressions used by the detectors are
implemented by a small backtracking matcher over `List Char`.
-/

namespace AgentGuard

/-! ## Character and string primitives

The detectors only ever lowercase/uppercase ASCII and search for literal
substrings, so the helpers below work on `List Char` with ASCII case maps
(matching what `String.prototype.toLowerCase` does on the inputs involved).
-/

/-- ASCII lowercase of one character. -/
def lowerChar (c : Char) : Char :=
  if 'A' ≤ c ∧ c ≤ 'Z' then Char.ofNat (c.toNat + 32) else c

/-- ASCII uppercase of one character. -/
def upperChar (c : Char) : Char :=
  if 'a' ≤ c ∧ c ≤ 'z' then Char.ofNat (c.toNat - 32) else c

/-- ASCII lowercase of a string (model of `s.toLowerCase()`). -/
def strLower (s : String) : String := ⟨s.data.map lowerChar⟩

/-- ASCII uppercase of a string (model of `s.toUpperCase()`). -/
def strUpper (s : String) : String := ⟨s.data.map upperChar⟩

/-- Substring containment on character lists. -/
def containsSubCL (hay needle : List Char) : Bool :=
  match hay with
  | [] => needle.isEmpty
  | _ :: t => needle.isPrefixOf hay || containsSubCL t needle

/-- Model of JavaScript `hay.includes(needle)`. -/
def strContains (hay needle : String) : Bool :=
  containsSubCL hay.data needle.data

/-- Model of JavaScript `hay.startsWith(needle)`. -/
def strStartsWith (hay needle : String) : Bool :=
  needle.data.isPrefixOf hay.data

/-- Model of JavaScript `hay.endsWith(needle)`. -/
def strEndsWith (hay needle : String) : Bool :=
  needle.data.isSuffixOf hay.data

/-- Join a list of strings with a separator (model of `Array.join`). -/
def joinWith (sep : String) : List String → String
  | [] => ""
  | [x] => x
  | x :: xs => x ++ sep ++ joinWith sep xs

/-! ## A small regex engine

The exec detector uses a handful of fixed regular expressions
(`FORK_BOMB_PATTERNS`, the shell-injection patterns, the unlimited-value
pattern in the Web3 sign handler).  Each one is a plain sequence of
literals, character classes and Kleene stars, so a list of atoms with a
backtracking matcher models `RegExp.prototype.test` (unanchored search). -/

/-- One regex atom: a literal character, `cls*`, `cls+` (via `one` + `star`),
or a single character from a class. -/
inductive RAtom where
  /-- a literal character -/
  | lit (c : Char)
  /-- zero or more characters of a class (e.g. `\s*`, `.*`) -/
  | star (p : Char → Bool)
  /-- exactly one character of a class (e.g. `\w`, `\d`) -/
  | one (p : Char → Bool)

/-- Fuelled matcher core: every recursive call shrinks
`atoms.length + cs.length`, so fuel `atoms.length + cs.length + 1` never
runs out; the fuel only makes the recursion structural (and hence kernel-
reducible). -/
def matchAtomsFuel : Nat → List RAtom → List Char → Bool
  | 0, _, _ => false
  | _ + 1, [], _ => true
  | f + 1, .lit c :: as, cs =>
      match cs with
      | [] => false
      | c' :: cs' => c == c' && matchAtomsFuel f as cs'
  | f + 1, .one p :: as, cs =>
      match cs with
      | [] => false
      | c :: cs' => p c && matchAtomsFuel f as cs'
  | f + 1, .star p :: as, cs =>
      matchAtomsFuel f as cs ||
        (match cs with
         | [] => false
         | c :: cs' => p c && matchAtomsFuel f (.star p :: as) cs')

/-- Does some prefix of `cs` match the atom sequence? -/
def matchAtoms (atoms : List RAtom) (cs : List Char) : Bool :=
  matchAtomsFuel (atoms.length + cs.length + 1) atoms cs

/-- Unanchored search: does the pattern match anywhere in the text?
(model of JavaScript `re.test(s)` for patterns without anchors). -/
def searchCL (atoms : List RAtom) : List Char → Bool
  | [] => matchAtoms atoms []
  | c :: cs => matchAtoms atoms (c :: cs) || searchCL atoms cs

/-- Model of `re.test(s)` for a fixed atom sequence. -/
def regexTest (atoms : List RAtom) (s : String) : Bool :=
  searchCL atoms s.data

/-- JavaScript `\s` (ASCII part). -/
def isWs (c : Char) : Bool :=
  c == ' ' || c == '\t' || c == '\n' || c == '\r' || c == '\x0b' || c == '\x0c'

/-- JavaScript `\w`: `[A-Za-z0-9_]`. -/
def isWordChar (c : Char) : Bool :=
  ('a' ≤ c && c ≤ 'z') || ('A' ≤ c && c ≤ 'Z') || ('0' ≤ c && c ≤ '9') || c == '_'

/-- JavaScript `.` without the `s` flag: anything but a line terminator. -/
def isDotChar (c : Char) : Bool :=
  !(c == '\n' || c == '\r')

/-- ASCII decimal digit. -/
def isDigitChar (c : Char) : Bool :=
  '0' ≤ c && c ≤ '9'

/-- Hexadecimal digit (`[a-fA-F0-9]`). -/
def isHexChar (c : Char) : Bool :=
  isDigitChar c || ('a' ≤ c && c ≤ 'f') || ('A' ≤ c && c ≤ 'F')

/-- Turn a plain string into literal atoms. -/
def litAtoms (s : String) : List RAtom := s.data.map .lit

/-! ## Shared enums (`src/types`) -/

/-- Risk level of a finding or decision (`src/types/scanner.ts`). -/
inductive RiskLevel where
  | low | medium | high | critical
  deriving DecidableEq, Repr

/-- Scanner decision (`src/types/action.ts`): `allow | deny | confirm`. -/
inductive Decision where
  | allow | deny | confirm
  deriving DecidableEq, Repr

/-- Evidence attached to an analysis or decision (`ActionEvidence`). -/
structure ActionEvidence where
  etype : String
  field : Option String := none
  mtch : Option String := none
  description : String
  deriving DecidableEq, Repr

/-- Evidence with only a type and a description. -/
def evd (etype description : String) : ActionEvidence :=
  { etype := etype, description := description }

/-- Evidence carrying a field name and the matched text. -/
def evdAt (etype field mtch description : String) : ActionEvidence :=
  { etype := etype, field := some field, mtch := some mtch,
    description := description }

/-! ## Exec command detector (`src/action/detectors/exec.ts`) -/

/-- Input of the exec detector (`ExecCommandData`): `args`/`env` are
optional; `args: []` is the `some []` case (truthy in JavaScript). -/
structure ExecCommandData where
  command : String
  args : Option (List String) := none
  env : Option (List (String × String)) := none
  deriving DecidableEq, Repr

/-- Result of `analyzeExecCommand` (`ExecAnalysisResult`). -/
structure ExecAnalysisResult where
  risk_level : RiskLevel
  risk_tags : List String
  evidence : List ActionEvidence
  should_block : Bool
  block_reason : Option String := none
  deriving DecidableEq, Repr

/-- Safe command allowlist (`SAFE_COMMAND_PREFIXES`). -/
def SAFE_COMMAND_PREFIXES : List String := [
  "ls", "echo", "pwd", "whoami", "date", "hostname", "uname",
  "cat", "head", "tail", "wc", "grep", "find", "which", "type",
  "tree", "du", "df", "sort", "uniq", "diff", "cd",
  "mkdir", "cp", "mv", "touch",
  "git status", "git log", "git diff", "git branch", "git show", "git remote",
  "git clone", "git checkout", "git pull", "git fetch", "git merge",
  "git add", "git commit", "git push",
  "npm install", "npm run", "npm test", "npm ci", "npm start",
  "npx", "yarn", "pnpm",
  "pip install", "pip3 install",
  "node --version", "node -v", "npm --version", "npm -v", "npx --version",
  "python --version", "python3 --version", "pip --version",
  "tsc --version", "go version", "rustc --version", "java -version",
  "tsc", "go build", "go run",
  "cargo build", "cargo run", "cargo test",
  "make"]

/-- Shell metacharacters disqualifying a command from the safe list
(`SHELL_METACHAR_PATTERN`, the character class of `[;|&\x60$(){}]`). -/
def isShellMetachar (c : Char) : Bool :=
  c == ';' || c == '|' || c == '&' || c == '\x60' || c == '$' ||
  c == '(' || c == ')' || c == '\x7b' || c == '\x7d'

/-- Model of `SHELL_METACHAR_PATTERN.test(s)`. -/
def hasShellMetachar (s : String) : Bool :=
  s.data.any isShellMetachar

/-- Atom sequence for the first fork-bomb regex,
`:\s*\(\s*\)\s*\{.*:\s*\|\s*:.*&.*\}`. -/
def forkBombAtoms : List RAtom := [
  .lit ':', .star isWs, .lit '(', .star isWs, .lit ')', .star isWs,
  .lit '\x7b', .star isDotChar, .lit ':', .star isWs, .lit '|',
  .star isWs, .lit ':', .star isDotChar, .lit '&', .star isDotChar,
  .lit '\x7d']

/-- Fuelled matcher for the second fork-bomb regex: match atoms against a
prefix of the text (literals compared case-insensitively, per the `i`
flag) and require a word boundary right after the match.  Fuel as in
`matchAtomsFuel`. -/
def matchAtomsBoundaryFuel : Nat → List RAtom → List Char → Bool
  | 0, _, _ => false
  | _ + 1, [], [] => true
  | _ + 1, [], c :: _ => !isWordChar c
  | f + 1, .lit c :: as, cs =>
      match cs with
      | [] => false
      | c' :: rest => c == lowerChar c' && matchAtomsBoundaryFuel f as rest
  | f + 1, .one p :: as, cs =>
      match cs with
      | [] => false
      | c :: rest => p c && matchAtomsBoundaryFuel f as rest
  | f + 1, .star p :: as, cs =>
      matchAtomsBoundaryFuel f as cs ||
        (match cs with
         | [] => false
         | c :: rest => p c && matchAtomsBoundaryFuel f (.star p :: as) rest)

/-- Boundary-checking matcher with sufficient fuel. -/
def matchAtomsBoundary (atoms : List RAtom) (cs : List Char) : Bool :=
  matchAtomsBoundaryFuel (atoms.length + cs.length + 1) atoms cs

/-- Model of the second fork-bomb regex `\bfork\s*bomb\b` with the `i`
flag, applied at one position: a word boundary precedes (checked by the
caller), then `fork`, optional whitespace, `bomb`, a word boundary. -/
def forkBombWordAt (cs : List Char) : Bool :=
  matchAtomsBoundary (litAtoms "fork" ++ [.star isWs] ++ litAtoms "bomb") cs

/-- Search for `\bfork\s*bomb\b/i`: scan every position whose previous
character is not a word character. -/
def forkBombWordSearch : Option Char → List Char → Bool
  | _, [] => false
  | prev, c :: cs =>
      ((match prev with
        | none => true
        | some pc => !isWordChar pc) && forkBombWordAt (c :: cs)) ||
      forkBombWordSearch (some c) cs

/-- Fork bomb patterns (`FORK_BOMB_PATTERNS`), as test functions. -/
def FORK_BOMB_PATTERNS : List (String → Bool) := [
  fun s => regexTest forkBombAtoms s,
  fun s => forkBombWordSearch none s.data]

/-- Dangerous command substrings (`DANGEROUS_COMMANDS`).  The last four
entries are literal strings in the source and are matched with
`String.prototype.includes`, not as regular expressions. -/
def DANGEROUS_COMMANDS : List String := [
  "rm -rf",
  "rm -fr",
  "mkfs",
  "dd if=",
  "chmod 777",
  "chmod -R 777",
  "> /dev/sda",
  "mv /* ",
  "wget.*\\|.*sh",
  "curl.*\\|.*sh",
  "curl.*\\|.*bash",
  "wget.*\\|.*bash"]

/-- Commands that access sensitive data (`SENSITIVE_COMMANDS`). -/
def SENSITIVE_COMMANDS : List String := [
  "cat /etc/passwd",
  "cat /etc/shadow",
  "cat ~/.ssh",
  "cat ~/.aws",
  "cat ~/.kube",
  "cat ~/.npmrc",
  "cat ~/.netrc",
  "printenv",
  "env",
  "set"]

/-- Commands that modify system state (`SYSTEM_COMMANDS`). -/
def SYSTEM_COMMANDS : List String := [
  "sudo", "su ", "chown", "chmod", "chgrp", "useradd", "userdel",
  "groupadd", "passwd", "visudo", "systemctl", "service ", "init ",
  "shutdown", "reboot", "halt"]

/-- Network-related commands (`NETWORK_COMMANDS`). -/
def NETWORK_COMMANDS : List String := [
  "curl ", "wget ", "nc ", "netcat", "ncat", "ssh ", "scp ",
  "rsync ", "ftp ", "sftp "]

/-- Shell injection sub-patterns tested in `analyzeExecCommand`:
`;\s*\w+`, `\|\s*\w+`, a backtick-delimited span, `\$\([^)]+\)`,
`&&\s*\w+`, `\|\|\s*\w+`. -/
def shellInjectionAtoms : List (List RAtom) := [
  [.lit ';', .star isWs, .one isWordChar],
  [.lit '|', .star isWs, .one isWordChar],
  [.lit '\x60', .one (fun c => !(c == '\x60')), .star (fun c => !(c == '\x60')), .lit '\x60'],
  [.lit '$', .lit '(', .one (fun c => !(c == ')')), .star (fun c => !(c == ')')), .lit ')'],
  [.lit '&', .lit '&', .star isWs, .one isWordChar],
  [.lit '|', .lit '|', .star isWs, .one isWordChar]]

/-- Model of the shell-injection loop (first matching pattern fires). -/
def hasShellInjection (s : String) : Bool :=
  shellInjectionAtoms.any (fun atoms => regexTest atoms s)

/-- Sensitive environment variable key fragments. -/
def sensitiveEnvKeys : List String :=
  ["API_KEY", "SECRET", "PASSWORD", "TOKEN", "PRIVATE", "CREDENTIAL"]

/-- Full command string: `command + ' ' + args.join(' ')` when `args` is
present (including the empty array, which is truthy), else `command`. -/
def fullCommandOf (cmd : ExecCommandData) : String :=
  match cmd.args with
  | some a => cmd.command ++ " " ++ joinWith " " a
  | none => cmd.command

/-- Safe command test used in step 3 of the detector: the lowercased
command equals a safe prefix or starts with one followed by a space. -/
def isSafeCommand (lower : String) : Bool :=
  SAFE_COMMAND_PREFIXES.any fun p =>
    lower == p || strStartsWith lower (p ++ " ")

/-- Sensitive-command substring test (lowercased containment). -/
def hasSensitiveCommand (lower : String) : Bool :=
  SENSITIVE_COMMANDS.any fun s => strContains lower (strLower s)

/-- Model of `analyzeExecCommand`.  Mutation of `riskLevel`/`riskTags` in
the source becomes a chain of lets; the per-category loops that push one
tag per matching list entry become `filter`+`map`. -/
def analyzeExecCommand (cmd : ExecCommandData) (execAllowed : Bool) :
    ExecAnalysisResult :=
  let full := fullCommandOf cmd
  let lower := strLower full
  let forkHit := FORK_BOMB_PATTERNS.any fun p => p full
  -- the dangerous loop runs only when the fork-bomb loop did not match
  let dangerHit : Option String :=
    if forkHit then none
    else DANGEROUS_COMMANDS.find? fun d => strContains lower (strLower d)
  let isCritical := forkHit || dangerHit.isSome
  -- step 3: safe-command early return
  if !isCritical && !hasShellMetachar full && !hasSensitiveCommand lower &&
      isSafeCommand lower then
    { risk_level := .low, risk_tags := [], evidence := [],
      should_block := false, block_reason := none }
  else
    let dangerTags : List String := if isCritical then ["DANGEROUS_COMMAND"] else []
    let dangerEvidence : List ActionEvidence :=
      if forkHit then
        [{ etype := "dangerous_command", field := some "command",
           mtch := some "fork bomb", description := "Fork bomb detected" }]
      else
        match dangerHit with
        | some d =>
            [{ etype := "dangerous_command", field := some "command",
               mtch := some d,
               description := "Dangerous command pattern detected: " ++ d }]
        | none => []
    let sensMatches := SENSITIVE_COMMANDS.filter fun s => strContains lower (strLower s)
    let sensTags := sensMatches.map fun _ => "SENSITIVE_DATA_ACCESS"
    let sensEvidence := sensMatches.map fun s =>
      ({ etype := "sensitive_access", field := some "command", mtch := some s,
         description := "Sensitive data access: " ++ s } : ActionEvidence)
    let sysMatches := SYSTEM_COMMANDS.filter fun sys =>
      strStartsWith lower (strLower sys) || strContains lower (" " ++ strLower sys)
    let sysTags := sysMatches.map fun _ => "SYSTEM_COMMAND"
    let sysEvidence := sysMatches.map fun sys =>
      ({ etype := "system_command", field := some "command",
         mtch := some sys.trim,
         description := "System modification command: " ++ sys.trim } : ActionEvidence)
    let netMatches := NETWORK_COMMANDS.filter fun net =>
      strStartsWith lower (strLower net) || strContains lower (" " ++ strLower net)
    let netTags := netMatches.map fun _ => "NETWORK_COMMAND"
    let netEvidence := netMatches.map fun net =>
      ({ etype := "network_command", field := some "command",
         mtch := some net.trim,
         description := "Network command: " ++ net.trim } : ActionEvidence)
    let injHit := hasShellInjection full
    let injTags : List String := if injHit then ["SHELL_INJECTION_RISK"] else []
    let injEvidence : List ActionEvidence :=
      if injHit then
        [{ etype := "shell_injection", field := some "command",
           description := "Command contains shell metacharacters" }]
      else []
    let envMatches : List (String × String) :=
      match cmd.env with
      | none => []
      | some kvs => kvs.filter fun kv =>
          sensitiveEnvKeys.any fun s => strContains (strUpper kv.1) s
    let envTags := envMatches.map fun _ => "SENSITIVE_ENV_VAR"
    let envEvidence := envMatches.map fun kv =>
      ({ etype := "sensitive_env", field := some "env", mtch := some kv.1,
         description := "Sensitive environment variable: " ++ kv.1 } : ActionEvidence)
    -- risk level lifts, in source order
    let l0 : RiskLevel := if isCritical then .critical else .low
    let l1 := if !sensMatches.isEmpty then (if l0 = .critical then l0 else .high) else l0
    let l2 := if !sysMatches.isEmpty then (if l1 = .low then .medium else l1) else l1
    let l3 := if !netMatches.isEmpty then (if l2 = .low then .medium else l2) else l2
    let l4 := if injHit then (if l3 = .low then .medium else l3) else l3
    { risk_level := l4,
      risk_tags := dangerTags ++ sensTags ++ sysTags ++ netTags ++ injTags ++ envTags,
      evidence := dangerEvidence ++ sensEvidence ++ sysEvidence ++ netEvidence ++
        injEvidence ++ envEvidence,
      should_block := isCritical || !execAllowed,
      block_reason :=
        if forkHit then some "Dangerous command: fork bomb"
        else match dangerHit with
          | some d => some ("Dangerous command: " ++ d)
          | none => if execAllowed then none else some "Command execution not allowed" }

/-! ## Capability model (`src/types/skill.ts`) -/

/-- Exec capability: `allow | deny`. -/
inductive ExecCap where
  | allow | deny
  deriving DecidableEq, Repr

/-- Web3 transaction policy. -/
inductive TxPolicy where
  | allow | confirm_high_risk | deny
  deriving DecidableEq, Repr

/-- Optional Web3 capability block. -/
structure Web3Caps where
  chains_allowlist : List Nat
  rpc_allowlist : List String := []
  tx_policy : TxPolicy
  deriving DecidableEq, Repr

/-- Capability model of a skill (`CapabilityModel`). -/
structure CapabilityModel where
  network_allowlist : List String
  filesystem_allowlist : List String
  exec : ExecCap
  secrets_allowlist : List String
  web3 : Option Web3Caps := none
  deriving DecidableEq, Repr

/-- Policy decision returned by the action scanner (`PolicyDecision`). -/
structure PolicyDecision where
  decision : Decision
  risk_level : RiskLevel
  risk_tags : List String
  evidence : List ActionEvidence := []
  explanation : Option String := none
  deriving DecidableEq, Repr

/-! ## Secret patterns and the network detector

`src/action/detectors/network.ts` and `src/action/detectors/secret-leak.ts`
are not part of the source tree (only their callers in the action scanner
and their tests are), so they are modelled from the spec below. -/

/-- Does the text contain `0x` followed by at least 64 hex digits?
Modelled from the spec: the priority-100 private-key secret pattern of the
pattern library (the `secret-leak` detector source is missing). -/
def hasHexPrivateKey : List Char → Bool
  | [] => false
  | c :: rest =>
      (c == '0' && (match rest with
        | 'x' :: hexPart => 64 ≤ (hexPart.takeWhile isHexChar).length
        | _ => false)) ||
      hasHexPrivateKey rest

/-- Is the text a whitespace-separated sequence of 12/15/18/21/24 plausible
BIP-39 words (lowercase alphabetic, 3–8 characters)?
Modelled from the spec: the priority-100 mnemonic secret pattern (the
`secret-leak` detector source is missing); the 2048-entry BIP-39 word list
is abstracted to a per-word shape check. -/
def looksLikeMnemonic (s : String) : Bool :=
  let words := (s.split Char.isWhitespace).filter fun w => w ≠ ""
  (words.length == 12 || words.length == 15 || words.length == 18 ||
    words.length == 21 || words.length == 24) &&
  words.all fun w =>
    3 ≤ w.length && w.length ≤ 8 && w.data.all fun c => 'a' ≤ c && c ≤ 'z'

/-- Does the text contain a priority-≥90 secret (hex private key, mnemonic
phrase, or PEM private-key header)?
Modelled from the spec: `containsCriticalSecrets` of the missing
`secret-leak` detector; the PEM header check is containment of the
private-key header fragment. -/
def containsCriticalSecrets (s : String) : Bool :=
  hasHexPrivateKey s.data || looksLikeMnemonic s ||
    strContains s "PRIVATE KEY-----"

/-- Does the text contain a priority-50–89 secret?
Modelled from the spec: AWS access key (`AKIA` + 16 chars of `[0-9A-Z]`),
GitHub token, JWT, database DSN, or a password assignment. -/
def containsPotentialSecret (s : String) : Bool :=
  regexTest (litAtoms "AKIA" ++ List.replicate 16
    (.one fun c => isDigitChar c || ('A' ≤ c && c ≤ 'Z'))) s ||
  strContains s "ghp_" || strContains s "gho_" || strContains s "ghu_" ||
  strContains s "ghs_" || strContains s "ghr_" ||
  regexTest (litAtoms "ey" ++ [.one isWordChar, .star isWordChar, .lit '.'] ++
    litAtoms "ey") s ||
  strContains s "postgres://" || strContains s "mysql://" ||
  strContains s "mongodb://" ||
  regexTest (litAtoms "password" ++
    [.star isWs, .one fun c => c == ':' || c == '=']) (strLower s)

/-- Webhook/exfiltration domains of the pattern library. -/
def WEBHOOK_DOMAINS : List String := [
  "discord.com", "discordapp.com", "api.telegram.org", "hooks.slack.com",
  "webhook.site", "requestbin.com", "pipedream.com", "ngrok.io",
  "ngrok-free.app", "beeceptor.com", "mockbin.org"]

/-- High-risk top-level domains of the pattern library. -/
def HIGH_RISK_TLDS : List String := [
  ".xyz", ".top", ".tk", ".ml", ".ga", ".cf", ".gq", ".work",
  ".click", ".link"]

/-- Priority-≥90 secret scan over an optional request body. -/
def bodyHasCriticalSecret : Option String → Bool
  | some b => containsCriticalSecrets b
  | none => false

/-- Network request data, after URL parsing: the host component plus a
validity flag stand in for the raw `url` string.
Modelled from the spec: the `network.ts` detector source is missing, so
its input is embedded post-parse. -/
structure NetworkRequestData where
  method : String
  host : String
  hostValid : Bool := true
  body_preview : Option String := none
  deriving DecidableEq, Repr

/-- Detector analysis shared by network/exec detectors. -/
structure NetAnalysisResult where
  risk_level : RiskLevel
  risk_tags : List String
  evidence : List ActionEvidence
  should_block : Bool
  block_reason : Option String := none
  deriving DecidableEq, Repr

/-- Numeric rank of a risk level. -/
def riskRank : RiskLevel → Nat
  | .low => 0
  | .medium => 1
  | .high => 2
  | .critical => 3

/-- Larger of two risk levels. -/
def riskMax (a b : RiskLevel) : RiskLevel :=
  if riskRank a ≥ riskRank b then a else b

/-- Model of `analyzeNetworkRequest`.
Modelled from the spec: the `network.ts` detector source is missing; the
spec's six steps are applied in order — invalid URL block, webhook-domain
block, body secret scan (priority ≥ 90 critical `CRITICAL_SECRET_EXFIL`,
50–89 `POTENTIAL_SECRET_EXFIL`), high-risk TLD lift, untrusted-domain tag
when an allowlist is present. -/
def analyzeNetworkRequest (req : NetworkRequestData)
    (allowlist : List String) : NetAnalysisResult :=
  if !req.hostValid then
    { risk_level := .high, risk_tags := ["INVALID_URL"],
      evidence := [{ etype := "invalid_url", field := some "url", description := "URL could not be parsed" }],
      should_block := true, block_reason := some "Invalid URL" }
  else
    let inAllowlist := allowlist.contains req.host
    let webhookHit := WEBHOOK_DOMAINS.contains req.host && !inAllowlist
    let criticalSecret := bodyHasCriticalSecret req.body_preview
    let potentialSecret :=
      match req.body_preview with
      | some b => !containsCriticalSecrets b && containsPotentialSecret b
      | none => false
    let tldHit :=
      HIGH_RISK_TLDS.any (fun t => strEndsWith req.host t) && !inAllowlist
    let isWriteMethod := req.method == "POST" || req.method == "PUT"
    let untrustedHit := !inAllowlist && !allowlist.isEmpty
    let tags :=
      (if webhookHit then ["WEBHOOK_EXFIL"] else []) ++
      (if criticalSecret then ["CRITICAL_SECRET_EXFIL"]
       else if potentialSecret then ["POTENTIAL_SECRET_EXFIL"] else []) ++
      (if tldHit then ["HIGH_RISK_TLD"] else []) ++
      (if untrustedHit then ["UNTRUSTED_DOMAIN"] else [])
    let l0 : RiskLevel := .low
    let l1 := if webhookHit then riskMax l0 .high else l0
    let l2 :=
      if criticalSecret then .critical
      else if potentialSecret then riskMax l1 .medium else l1
    let l3 :=
      if tldHit then riskMax l2 (if isWriteMethod then .high else .medium)
      else l2
    let l4 :=
      if untrustedHit && isWriteMethod then riskMax l3 .high else l3
    { risk_level := l4,
      risk_tags := tags,
      evidence := [],
      should_block := webhookHit || criticalSecret,
      block_reason :=
        if criticalSecret then some "Secret detected in request body"
        else if webhookHit then some "Webhook exfiltration domain" else none }

/-! ## Web3 data and the threat-intel outcome -/

/-- Web3 transaction data (`Web3TxData`). -/
structure Web3TxData where
  chain_id : Nat
  sender : String := ""
  target : String := ""
  value : String := "0"
  data : Option String := none
  origin : Option String := none
  deriving DecidableEq, Repr

/-- Web3 signature request data (`Web3SignData`); `typed_data` is kept as
its `JSON.stringify` image, which is all the handler inspects. -/
structure Web3SignData where
  chain_id : Nat
  origin : Option String := none
  typed_data : Option String := none
  message : Option String := none
  deriving DecidableEq, Repr

/-- Phishing-site endpoint result. -/
structure PhishingResult where
  is_phishing : Bool
  phishing_site : Bool := false
  deriving DecidableEq, Repr

/-- Address-security endpoint result for one address. -/
structure AddressRisk where
  is_blacklisted : Bool := false
  is_phishing_activities : Bool := false
  is_stealing_attack : Bool := false
  is_honeypot_related_address : Bool := false
  deriving DecidableEq, Repr

/-- One approval change reported by transaction simulation. -/
structure ApprovalChange where
  spender : String
  is_unlimited : Bool
  deriving DecidableEq, Repr

/-- Transaction-simulation endpoint result. -/
structure SimulationResult where
  success : Bool
  approval_changes : List ApprovalChange := []
  risk_tags : List String := []
  error_message : Option String := none
  deriving DecidableEq, Repr

/-- Outcome of the GoPlus threat-intel calls made during one evaluation.
The client is external I/O; each field records what the corresponding
`await` produced, with `none` standing for a thrown/failed call (the
handlers catch those and continue).  `address = none` also covers a
response missing the target address. -/
structure GoPlusOutcome where
  phishing : Option PhishingResult := none
  address : Option AddressRisk := none
  configured : Bool := false
  simulation : Option SimulationResult := none
  deriving DecidableEq, Repr

/-! ## Action scanner (`ActionScanner`, `src/action/scanner.ts`)

`decide` first awaits `registry.lookup` for the actor's effective
capabilities; the lookup is registry I/O, so the model takes the looked-up
`CapabilityModel` as a parameter (the trust level is computed but unused
by the TypeScript method).  The GoPlus client calls are likewise passed in
as a `GoPlusOutcome`. -/

/-- Action data variants dispatched by `decide`. -/
inductive ActionData where
  | networkRequest (req : NetworkRequestData)
  | execCommand (cmd : ExecCommandData)
  | web3Tx (tx : Web3TxData)
  | web3Sign (sign : Web3SignData)
  | secretAccess (secret_name : String) (access_type : String)
  | readFile (path : String)
  | writeFile (path : String)
  | unknownAction (t : String)
  deriving DecidableEq, Repr

namespace ActionScanner

/-- Model of `ActionScanner.handleNetworkRequest`. -/
def handleNetworkRequest (req : NetworkRequestData) (caps : CapabilityModel)
    (userPresent : Bool) : PolicyDecision :=
  let analysis := analyzeNetworkRequest req caps.network_allowlist
  if "CRITICAL_SECRET_EXFIL" ∈ analysis.risk_tags then
    { decision := .deny, risk_level := .critical,
      risk_tags := analysis.risk_tags, evidence := analysis.evidence,
      explanation := some (analysis.block_reason.getD
        "Critical secret exfiltration blocked") }
  else if analysis.should_block then
    { decision := .deny, risk_level := analysis.risk_level,
      risk_tags := analysis.risk_tags, evidence := analysis.evidence,
      explanation := some (analysis.block_reason.getD "Request blocked") }
  else if analysis.risk_level = .high ∨ analysis.risk_level = .critical then
    { decision := if userPresent then .confirm else .deny,
      risk_level := analysis.risk_level, risk_tags := analysis.risk_tags,
      evidence := analysis.evidence,
      explanation := some (if userPresent then
        "High-risk request requires confirmation"
        else "High-risk request denied (user not present)") }
  else if "UNTRUSTED_DOMAIN" ∈ analysis.risk_tags then
    { decision := if userPresent then .confirm else .deny,
      risk_level := analysis.risk_level, risk_tags := analysis.risk_tags,
      evidence := analysis.evidence,
      explanation := some (if userPresent then
        "Request to untrusted domain requires confirmation"
        else "Request to untrusted domain denied (user not present)") }
  else
    { decision := .allow, risk_level := analysis.risk_level,
      risk_tags := analysis.risk_tags, evidence := analysis.evidence }

/-- Model of `ActionScanner.handleExecCommand`. -/
def handleExecCommand (cmd : ExecCommandData) (caps : CapabilityModel) :
    PolicyDecision :=
  let execAllowed := caps.exec == .allow
  let analysis := analyzeExecCommand cmd execAllowed
  if analysis.should_block then
    -- critical threats are hard denied; non-critical blocked commands
    -- return confirm so balanced mode can prompt instead of blocking
    let isCritical := analysis.risk_level = .critical
    { decision := if isCritical then .deny else .confirm,
      risk_level := analysis.risk_level, risk_tags := analysis.risk_tags,
      evidence := analysis.evidence,
      explanation :=
        some (analysis.block_reason.getD "Command execution blocked") }
  else if analysis.risk_level = .high ∨ analysis.risk_level = .critical then
    { decision := .confirm, risk_level := analysis.risk_level,
      risk_tags := analysis.risk_tags, evidence := analysis.evidence,
      explanation := some "High-risk command requires confirmation" }
  else
    { decision := .allow, risk_level := analysis.risk_level,
      risk_tags := analysis.risk_tags, evidence := analysis.evidence }

/-- Accumulator threading the mutable locals of the Web3 handlers
(`decision`, `riskLevel`, `riskTags`, `evidence`). -/
structure W3State where
  decision : Decision := .allow
  risk_level : RiskLevel := .low
  risk_tags : List String := []
  evidence : List ActionEvidence := []
  deriving DecidableEq, Repr

/-- Steps 1–5 of `ActionScanner.handleWeb3Tx`: everything before the
user-presence upgrade (none of it reads `user_present`). -/
def web3TxCore (tx : Web3TxData) (caps : CapabilityModel)
    (intel : GoPlusOutcome) : W3State :=
  let s0 : W3State := {}
  -- chain allowlist check
  let s1 :=
    match caps.web3 with
    | some w =>
        if !w.chains_allowlist.contains tx.chain_id then
          { s0 with
            decision := .deny, risk_level := .high,
            risk_tags := s0.risk_tags ++ ["CHAIN_NOT_ALLOWED"],
            evidence := s0.evidence ++ [evd "chain_not_allowed"
              ("Chain " ++ toString tx.chain_id ++ " not in allowlist")] }
        else s0
    | none => s0
  -- phishing-origin check (skipped when origin is absent/empty or the
  -- call threw)
  let s2 :=
    match tx.origin with
    | some o =>
        if o ≠ "" then
          match intel.phishing with
          | some pr =>
              if pr.is_phishing || pr.phishing_site then
                { s1 with
                  decision := .deny, risk_level := .critical,
                  risk_tags := s1.risk_tags ++ ["PHISHING_ORIGIN"],
                  evidence := s1.evidence ++ [evdAt "phishing_origin"
                    "origin" o "Transaction origin is a known phishing site"] }
              else s1
          | none => s1
        else s1
    | none => s1
  -- target address check (skipped when the call threw or the response
  -- lacks the address)
  let s3 :=
    match intel.address with
    | some ar =>
        let afterMal :=
          if ar.is_blacklisted || ar.is_phishing_activities ||
              ar.is_stealing_attack then
            { s2 with
              decision := .deny, risk_level := .critical,
              risk_tags := s2.risk_tags ++ ["MALICIOUS_ADDRESS"],
              evidence := s2.evidence ++ [evdAt "malicious_address" "to"
                tx.target "Target address is flagged as malicious"] }
          else s2
        if ar.is_honeypot_related_address then
          { afterMal with
            risk_level :=
              if afterMal.risk_level ≠ .critical then .high
              else afterMal.risk_level,
            risk_tags := afterMal.risk_tags ++ ["HONEYPOT_RELATED"],
            evidence := afterMal.evidence ++ [evdAt "honeypot_related" "to"
              tx.target "Target address is honeypot-related"] }
        else afterMal
    | none => s2
  -- simulation, only when GoPlus is configured and nothing denied yet
  let s4 :=
    if intel.configured && s3.decision ≠ .deny then
      match intel.simulation with
      | some sim =>
          let unlimited := sim.approval_changes.filter fun a => a.is_unlimited
          let afterUnlimited :=
            if !unlimited.isEmpty then
              { s3 with
                decision := if s3.decision = .allow then .confirm else s3.decision,
                risk_level :=
                  if s3.risk_level ≠ .critical then .high else s3.risk_level,
                risk_tags := s3.risk_tags ++ ["UNLIMITED_APPROVAL"],
                evidence := s3.evidence ++ [evd "unlimited_approval"
                  ("Unlimited approval to " ++
                    joinWith ", " (unlimited.map fun a => a.spender))] }
            else s3
          let afterTags :=
            { afterUnlimited with
              risk_tags := afterUnlimited.risk_tags ++ sim.risk_tags }
          if !sim.success then
            { afterTags with
              risk_level :=
                if afterTags.risk_level = .low then .medium
                else afterTags.risk_level,
              risk_tags := afterTags.risk_tags ++ ["SIMULATION_FAILED"],
              evidence := afterTags.evidence ++ [evd "simulation_failed"
                (sim.error_message.getD "Transaction simulation failed")] }
          else afterTags
      | none =>
          { s3 with
            evidence := s3.evidence ++
              [evd "simulation_error" "Could not simulate transaction"] }
    else s3
  -- tx_policy application
  match caps.web3 with
  | some w =>
      if w.tx_policy = .deny then { s4 with decision := .deny }
      else if w.tx_policy = .confirm_high_risk ∧ s4.risk_level ≠ .low then
        { s4 with decision :=
            if s4.decision = .allow then .confirm else s4.decision }
      else s4
  | none => s4

/-- User-presence upgrade shared by the Web3 handlers: `confirm` becomes
`deny` when the user is absent, with `user_not_present` evidence. -/
def applyUserPresence (s : W3State) (userPresent : Bool)
    (descr : String) : W3State :=
  if !userPresent ∧ s.decision = .confirm then
    { s with
      decision := .deny,
      evidence := s.evidence ++ [evd "user_not_present" descr] }
  else s

/-- Model of `ActionScanner.handleWeb3Tx`. -/
def handleWeb3Tx (tx : Web3TxData) (caps : CapabilityModel)
    (userPresent : Bool) (intel : GoPlusOutcome) : PolicyDecision :=
  let s := applyUserPresence (web3TxCore tx caps intel) userPresent
    "Risky transaction denied because user is not present"
  { decision := s.decision, risk_level := s.risk_level,
    risk_tags := s.risk_tags, evidence := s.evidence,
    explanation := some (
      if s.decision = .deny then "Transaction blocked due to security risks"
      else if s.decision = .confirm then
        "Transaction requires user confirmation"
      else "Transaction allowed") }

/-- Atom sequence of the unlimited-value pattern
`value.*:.*['"]\d{30,}['"]` in `handleWeb3Sign`. -/
def unlimitedValueAtoms : List RAtom :=
  litAtoms "value" ++ [.star isDotChar, .lit ':', .star isDotChar,
    .one fun c => c == '\'' || c == '"'] ++
  List.replicate 30 (.one isDigitChar) ++
  [.star isDigitChar, .one fun c => c == '\'' || c == '"']

/-- Steps of `ActionScanner.handleWeb3Sign` before the user-presence
upgrade (none of them reads `user_present`). -/
def web3SignCore (sign : Web3SignData) (caps : CapabilityModel)
    (intel : GoPlusOutcome) : W3State :=
  let s0 : W3State := {}
  let s1 :=
    match caps.web3 with
    | some w =>
        if !w.chains_allowlist.contains sign.chain_id then
          { s0 with
            decision := .deny, risk_level := .high,
            risk_tags := s0.risk_tags ++ ["CHAIN_NOT_ALLOWED"],
            evidence := s0.evidence ++ [evd "chain_not_allowed"
              ("Chain " ++ toString sign.chain_id ++ " not in allowlist")] }
        else s0
    | none => s0
  let s2 :=
    match sign.origin with
    | some o =>
        if o ≠ "" then
          match intel.phishing with
          | some pr =>
              if pr.is_phishing || pr.phishing_site then
                { s1 with
                  decision := .deny, risk_level := .critical,
                  risk_tags := s1.risk_tags ++ ["PHISHING_ORIGIN"],
                  evidence := s1.evidence ++ [evdAt "phishing_origin"
                    "origin" o
                    "Signature request origin is a known phishing site"] }
              else s1
          | none => s1
        else s1
    | none => s1
  -- typed-data checks on the JSON.stringify image
  let s4 :=
    match sign.typed_data with
    | some td =>
        let s3 :=
          if strContains td "Permit" || strContains td "permit" then
            { s2 with
              decision := if s2.decision = .allow then .confirm else s2.decision,
              risk_level :=
                if s2.risk_level = .low then .medium else s2.risk_level,
              risk_tags := s2.risk_tags ++ ["PERMIT_SIGNATURE"],
              evidence := s2.evidence ++ [evd "permit_signature"
                "Permit signature detected - can grant token approvals"] }
          else s2
        if strContains td "ffffffff" || strContains td "max" ||
            regexTest unlimitedValueAtoms td then
          { s3 with
            decision := if s3.decision = .allow then .confirm else s3.decision,
            risk_level :=
              if s3.risk_level ≠ .critical then .high else s3.risk_level,
            risk_tags := s3.risk_tags ++ ["UNLIMITED_VALUE"],
            evidence := s3.evidence ++ [evd "unlimited_value"
              "Signature contains unlimited/max value"] }
        else s3
    | none => s2
  -- message secret scan
  match sign.message with
  | some m =>
      if containsCriticalSecrets m then
        { s4 with
          decision := .deny, risk_level := .critical,
          risk_tags := s4.risk_tags ++ ["SECRET_IN_SIGNATURE"],
          evidence := s4.evidence ++ [evd "secret_in_message"
            "Message to sign contains sensitive data"] }
      else s4
  | none => s4

/-- Model of `ActionScanner.handleWeb3Sign`. -/
def handleWeb3Sign (sign : Web3SignData) (caps : CapabilityModel)
    (userPresent : Bool) (intel : GoPlusOutcome) : PolicyDecision :=
  let s := applyUserPresence (web3SignCore sign caps intel) userPresent
    "Risky signature denied because user is not present"
  { decision := s.decision, risk_level := s.risk_level,
    risk_tags := s.risk_tags, evidence := s.evidence,
    explanation := some (
      if s.decision = .deny then
        "Signature request blocked due to security risks"
      else if s.decision = .confirm then
        "Signature request requires user confirmation"
      else "Signature request allowed") }

/-- Model of `ActionScanner.handleSecretAccess`. -/
def handleSecretAccess (secret_name : String) (caps : CapabilityModel) :
    PolicyDecision :=
  if caps.secrets_allowlist.contains secret_name then
    { decision := .allow, risk_level := .low, risk_tags := [], evidence := [] }
  else
    { decision := .deny, risk_level := .high,
      risk_tags := ["SECRET_NOT_ALLOWED"],
      evidence := [evdAt "secret_access_denied" "secret_name" secret_name
        ("Secret " ++ secret_name ++ " not in allowlist")],
      explanation := some ("Access to secret " ++ secret_name ++
        " is not allowed") }

/-- Model of the allowlist test inside `ActionScanner.handleFileOperation`:
`*` matches everything, `p/**` is a `startsWith` prefix test, `p/*` is a
prefix test whose remainder may contain no slash, and a bare pattern
matches exactly or as a path prefix followed by `/`. -/
def fileAllowed (allowlist : List String) (path : String) : Bool :=
  allowlist.any fun pattern =>
    if pattern == "*" then true
    else if strEndsWith pattern "/**" then
      strStartsWith path (pattern.dropRight 3)
    else if strEndsWith pattern "/*" then
      let pre := pattern.dropRight 2
      strStartsWith path pre && !strContains (path.drop pre.length) "/"
    else path == pattern || strStartsWith path (pattern ++ "/")

/-- Model of `ActionScanner.handleFileOperation`. -/
def handleFileOperation (path : String) (isWrite : Bool)
    (caps : CapabilityModel) : PolicyDecision :=
  if fileAllowed caps.filesystem_allowlist path then
    { decision := .allow, risk_level := .low, risk_tags := [], evidence := [] }
  else
    { decision := .deny, risk_level := .medium,
      risk_tags := ["PATH_NOT_ALLOWED"],
      evidence := [evdAt "path_access_denied" "path" path
        ("Path " ++ path ++ " not in allowlist")],
      explanation := some ((if isWrite then "Write" else "Read") ++
        " access to " ++ path ++ " is not allowed") }

/-- Model of `ActionScanner.decide`: dispatch by action type with the
looked-up capabilities; unknown action types are denied. -/
def decide (caps : CapabilityModel) (userPresent : Bool)
    (intel : GoPlusOutcome) : ActionData → PolicyDecision
  | .networkRequest req => handleNetworkRequest req caps userPresent
  | .execCommand cmd => handleExecCommand cmd caps
  | .web3Tx tx => handleWeb3Tx tx caps userPresent intel
  | .web3Sign sign => handleWeb3Sign sign caps userPresent intel
  | .secretAccess name _ => handleSecretAccess name caps
  | .readFile path => handleFileOperation path false caps
  | .writeFile path => handleFileOperation path true caps
  | .unknownAction t =>
      { decision := .deny, risk_level := .high,
        risk_tags := ["UNKNOWN_ACTION_TYPE"],
        evidence := [evd "unknown_action" ("Unknown action type: " ++ t)],
        explanation := some ("Unknown action type: " ++ t) }

end ActionScanner

/-! ## Hook engine helpers (`src/adapters/common.ts`) -/

/-- Sensitive filesystem paths (`SENSITIVE_PATHS`). -/
def SENSITIVE_PATHS : List String := [
  ".env", ".env.local", ".env.production",
  ".ssh/", "id_rsa", "id_ed25519",
  ".aws/credentials", ".aws/config",
  ".npmrc", ".netrc",
  "credentials.json", "serviceAccountKey.json",
  ".kube/config"]

/-- Model of `isSensitivePath`: the empty path is falsy; backslashes are
normalised to slashes; each entry matches by `/entry` containment or by
suffix. -/
def isSensitivePath (filePath : String) : Bool :=
  if filePath = "" then false
  else
    let normalized : String := ⟨filePath.data.map fun c =>
      if c = '\\' then '/' else c⟩
    SENSITIVE_PATHS.any fun p =>
      strContains normalized ("/" ++ p) || strEndsWith normalized p

/-- Model of `shouldDenyAtLevel` on the `(decision, risk_level)` fields of
the scanner's `PolicyDecision`; the level string is taken as configured
(`loadConfig` defaults it to `"balanced"`), with the source's fallback for
unknown levels kept. -/
def shouldDenyAtLevel (dec : Decision) (risk : RiskLevel) (level : String) :
    Bool :=
  if level == "strict" then dec == .deny || dec == .confirm
  else if level == "balanced" then dec == .deny
  else if level == "permissive" then dec == .deny && risk == .critical
  else dec == .deny

/-- Model of `shouldAskAtLevel`. -/
def shouldAskAtLevel (dec : Decision) (risk : RiskLevel) (level : String) :
    Bool :=
  if level == "strict" then false
  else if level == "balanced" then dec == .confirm
  else if level == "permissive" then
    (dec == .deny && !(risk == .critical)) ||
    (dec == .confirm && (risk == .high || risk == .critical))
  else dec == .confirm

/-- Boolean capability view used by the untrusted-skill overlay; a missing
field (`none`) is not `=== false` and therefore allows. -/
structure CapBools where
  can_exec : Option Bool := none
  can_network : Option Bool := none
  can_write : Option Bool := none
  can_read : Option Bool := none
  can_web3 : Option Bool := none
  deriving DecidableEq, Repr

/-- Model of `isActionAllowedByCapabilities`: a null capability object
allows everything, and each case tests `can_x !== false`. -/
def isActionAllowedByCapabilities (actionType : String)
    (capabilities : Option CapBools) : Bool :=
  match capabilities with
  | none => true
  | some caps =>
      if actionType == "exec_command" then !(caps.can_exec == some false)
      else if actionType == "network_request" then
        !(caps.can_network == some false)
      else if actionType == "write_file" then !(caps.can_write == some false)
      else if actionType == "read_file" then !(caps.can_read == some false)
      else if actionType == "web3_tx" || actionType == "web3_sign" then
        !(caps.can_web3 == some false)
      else true

/-- Result of `getSkillTrustPolicy` (the registry lookup for the
initiating skill; its own failures are caught and flattened). -/
structure SkillTrustPolicy where
  trustLevel : Option String := none
  capabilities : Option CapBools := none
  isKnown : Bool := false
  deriving DecidableEq, Repr

/-! ## Hook decision engine (`src/adapters/engine.ts`)

`evaluateHook` is asynchronous glue around adapter parsing, the registry,
the action scanner and the audit log.  The model below fixes the adapter
outputs (event type, mapped action type, extracted file path, inferred
initiating skill) and the awaited results (the scanner's decision, the
trust policy) as explicit inputs; `decideResult = none` stands for the
scanner's `decide` promise rejecting, which the engine catches.  Audit
writes are modelled by returning the list of entries written. -/

/-- Hook event kind. -/
inductive EventKind where
  | pre | post
  deriving DecidableEq, Repr

/-- Verdict alphabet of `HookOutput.decision`. -/
inductive Verdict where
  | allow | deny | ask
  deriving DecidableEq, Repr

/-- Hook output (`HookOutput`), without the human-readable reason text. -/
structure HookOutput where
  decision : Verdict
  riskLevel : Option RiskLevel := none
  riskTags : List String := []
  initiatingSkill : Option String := none
  deriving DecidableEq, Repr

/-- One audit-log entry as written by `writeAuditLog` (decision kept as
the raw string, since the `catch` branch writes `"error"`). -/
structure AuditEntry where
  decision : String
  risk_level : RiskLevel
  risk_tags : List String
  deriving DecidableEq, Repr

/-- Inputs of one `evaluateHook` evaluation (adapter outputs and awaited
external results, fixed up front; see the section comment). -/
structure HookEvalIn where
  eventType : EventKind
  actionType : Option String
  filePath : String := ""
  initiatingSkill : Option String := none
  level : String := "balanced"
  decideResult : Option PolicyDecision := none
  policy : SkillTrustPolicy := {}
  deriving Repr

/-- Decision string of a scanner decision (for audit entries). -/
def Decision.asString : Decision → String
  | .allow => "allow"
  | .deny => "deny"
  | .confirm => "confirm"

/-- Synthetic read-only capability set used for unknown/untrusted
initiating skills. -/
def untrustedCaps : CapBools :=
  { can_exec := some false, can_network := some false,
    can_write := some false, can_read := some true,
    can_web3 := some false }

/-- Model of `evaluateHook`: post events audit and allow; an unmapped tool
allows; sensitive write paths short-circuit before the scanner runs; then
the scanner decision goes through the skill-trust overlay and the
protection-level thresholds; a scanner exception is caught and fails open
with an `ENGINE_ERROR` audit entry. -/
def evaluateHook (inp : HookEvalIn) : HookOutput × List AuditEntry :=
  if inp.eventType = .post then
    ({ decision := .allow }, [⟨"allow", .low, []⟩])
  else
    match inp.actionType with
    | none => ({ decision := .allow }, [])
    | some actionType =>
      -- fast check: sensitive file paths (Write/Edit)
      if actionType == "write_file" && isSensitivePath inp.filePath then
        let logged : List AuditEntry := [⟨"deny", .critical, ["SENSITIVE_PATH"]⟩]
        if inp.level == "permissive" && inp.initiatingSkill.isNone then
          ({ decision := .ask, riskLevel := some .critical,
             riskTags := ["SENSITIVE_PATH"],
             initiatingSkill := inp.initiatingSkill }, logged)
        else
          ({ decision := .deny, riskLevel := some .critical,
             riskTags := ["SENSITIVE_PATH"],
             initiatingSkill := inp.initiatingSkill }, logged)
      else
        match inp.decideResult with
        | none =>
            -- engine error → fail open
            ({ decision := .allow }, [⟨"error", .low, ["ENGINE_ERROR"]⟩])
        | some d =>
            -- skill trust policy enforcement
            let overlay : Option (HookOutput × List AuditEntry) :=
              match inp.initiatingSkill with
              | none => none
              | some _ =>
                  if (!inp.policy.isKnown ||
                        inp.policy.trustLevel == some "untrusted") &&
                      !isActionAllowedByCapabilities actionType
                        (some untrustedCaps) then
                    some ({ decision := .ask, riskLevel := some .high,
                            riskTags := ["UNTRUSTED_SKILL"],
                            initiatingSkill := inp.initiatingSkill },
                      [⟨"deny", .high, "UNTRUSTED_SKILL" :: d.risk_tags⟩])
                  else
                    match inp.policy.capabilities with
                    | some caps =>
                        if inp.policy.isKnown &&
                            !isActionAllowedByCapabilities actionType
                              (some caps) then
                          some ({ decision := .deny, riskLevel := some .high,
                                  riskTags := ["CAPABILITY_EXCEEDED"],
                                  initiatingSkill := inp.initiatingSkill },
                            [⟨"deny", .high,
                              "CAPABILITY_EXCEEDED" :: d.risk_tags⟩])
                        else none
                    | none => none
            match overlay with
            | some out => out
            | none =>
                let logged : List AuditEntry :=
                  [⟨d.decision.asString, d.risk_level, d.risk_tags⟩]
                if shouldDenyAtLevel d.decision d.risk_level inp.level then
                  ({ decision := .deny, riskLevel := some d.risk_level,
                     riskTags := d.risk_tags,
                     initiatingSkill := inp.initiatingSkill }, logged)
                else if shouldAskAtLevel d.decision d.risk_level inp.level then
                  ({ decision := .ask, riskLevel := some d.risk_level,
                     riskTags := d.risk_tags,
                     initiatingSkill := inp.initiatingSkill }, logged)
                else
                  ({ decision := .allow,
                     initiatingSkill := inp.initiatingSkill }, logged)

/-! ## Registry storage (`src/registry/storage.ts`)

The JSON file and its in-memory cache are I/O; the record-list operations
are modelled as pure functions on `List TrustRecord`. -/

/-- Trust record status. -/
inductive RecordStatus where
  | active | revoked
  deriving DecidableEq, Repr

/-- Trust record fields relevant to the storage operations. -/
structure TrustRecord where
  record_key : String
  status : RecordStatus := .active
  updated_at : String := ""
  deriving DecidableEq, Repr

namespace RegistryStorage

/-- Model of `RegistryStorage.upsert`: replace the first record with the
same `record_key` in place (`findIndex` + assignment), else append. -/
def upsert : List TrustRecord → TrustRecord → List TrustRecord
  | [], r => [r]
  | x :: xs, r =>
      if x.record_key = r.record_key then r :: xs else x :: upsert xs r

/-- Model of `RegistryStorage.findByKey`. -/
def findByKey (records : List TrustRecord) (recordKey : String) :
    Option TrustRecord :=
  records.find? fun r => r.record_key = recordKey

/-- Model of `RegistryStorage.remove`: filter the key out; the Boolean
reports whether anything was removed. -/
def remove (records : List TrustRecord) (recordKey : String) :
    List TrustRecord × Bool :=
  let filtered := records.filter fun r => !(r.record_key = recordKey)
  (filtered, filtered.length < records.length)

/-- Model of `RegistryStorage.updateStatus`: look the record up, set its
status and `updated_at` (the current time is a parameter), and upsert it
back. -/
def updateStatus (records : List TrustRecord) (recordKey : String)
    (status : RecordStatus) (now : String) : List TrustRecord × Bool :=
  match findByKey records recordKey with
  | none => (records, false)
  | some r => (upsert records { r with status := status, updated_at := now },
      true)

/-- Model of `RegistryStorage.import` with `merge = true`: both record
lists are poured into a `Map` keyed by `record_key` (imported records win
conflicts; JavaScript `Map.set` keeps first-insertion order), and the
map's values are taken back.  Feeding `upsert` from the empty list
implements exactly that. -/
def importMerge (records imported : List TrustRecord) : List TrustRecord :=
  (records ++ imported).foldl upsert []

/-- Keys of the stored records. -/
def keysOf (records : List TrustRecord) : List String :=
  records.map fun r => r.record_key

/-- Record-key uniqueness invariant of the registry store. -/
def keysNodup (records : List TrustRecord) : Prop :=
  (keysOf records).Nodup

instance (records : List TrustRecord) : Decidable (keysNodup records) :=
  inferInstanceAs (Decidable (keysOf records).Nodup)

end RegistryStorage

/-! ## Protection-level verdict (derived view)

`evaluateHook` combines `shouldDenyAtLevel`/`shouldAskAtLevel` into the
three-way hook verdict; `verdictAtLevel` names that combination for the
level-ordering property. -/

/-- Hook verdict computed from the two threshold predicates, as
`evaluateHook` does after the scanner returns. -/
def verdictAtLevel (level : String) (dec : Decision) (risk : RiskLevel) :
    Verdict :=
  if shouldDenyAtLevel dec risk level then .deny
  else if shouldAskAtLevel dec risk level then .ask
  else .allow

/-- Rank of a verdict in the partial order `deny < ask < allow`. -/
def verdictRank : Verdict → Nat
  | .deny => 0
  | .ask => 1
  | .allow => 2

/-! ## Example fixtures used by witnesses and counterexamples -/

/-- Capability set of the `none` preset: nothing allowed. -/
def nonePresetCaps : CapabilityModel :=
  { network_allowlist := [], filesystem_allowlist := [], exec := .deny,
    secrets_allowlist := [] }

/-- Capabilities with exec explicitly allowed. -/
def allowExecCaps : CapabilityModel :=
  { nonePresetCaps with exec := .allow }

/-- Capabilities whose filesystem allowlist covers the whole project tree. -/
def projectWideCaps : CapabilityModel :=
  { nonePresetCaps with filesystem_allowlist := ["./**"] }

/-- Capabilities with chain 1 allowed under a `confirm_high_risk` policy. -/
def web3ConfirmCaps : CapabilityModel :=
  { nonePresetCaps with
    web3 := some { chains_allowlist := [1], tx_policy := .confirm_high_risk } }

/-- Intel outcome reporting only a honeypot-related target address. -/
def honeypotIntel : GoPlusOutcome :=
  { address := some { is_honeypot_related_address := true } }

/-- A request body holding a `0x`+64-hex private key. -/
def privateKeyBody : String := "0x" ++ ⟨List.replicate 64 'a'⟩

/-- The `rm -rf /` command envelope. -/
def rmrfCmd : ExecCommandData := { command := "rm -rf /" }

/-- The `which mkfs` command envelope. -/
def whichMkfsCmd : ExecCommandData := { command := "which mkfs" }

/-- The `git status` command envelope. -/
def gitStatusCmd : ExecCommandData := { command := "git status" }

/-- The `npm install dotenv` command envelope. -/
def npmDotenvCmd : ExecCommandData := { command := "npm install dotenv" }

/-- A POST to an ordinary host carrying a private key in the body. -/
def privKeyReq : NetworkRequestData :=
  { method := "POST", host := "example.com",
    body_preview := some privateKeyBody }

/-- A pre-tool exec evaluation whose scanner call throws. -/
def engineErrorInput : HookEvalIn :=
  { eventType := .pre, actionType := some "exec_command",
    level := "balanced", decideResult := none }

/-- A strict-level write to `/project/.env` with no initiating skill. -/
def strictSensitiveWriteInput : HookEvalIn :=
  { eventType := .pre, actionType := some "write_file",
    filePath := "/project/.env", level := "strict" }

/-- A balanced-level write to `/project/.env` with no initiating skill. -/
def balancedSensitiveWriteInput : HookEvalIn :=
  { eventType := .pre, actionType := some "write_file",
    filePath := "/project/.env", level := "balanced" }

/-- A Web3 transaction on chain 1 with empty addresses. -/
def chain1Tx : Web3TxData := { chain_id := 1 }

/-- A Web3 signature request on chain 1 over Permit typed data. -/
def permitSign : Web3SignData :=
  { chain_id := 1, typed_data := some "Permit2" }

/-- Dangerous-substring hit on the lowercased full command. -/
def hasDangerousCommand (cmd : ExecCommandData) : Bool :=
  DANGEROUS_COMMANDS.any fun d =>
    strContains (strLower (fullCommandOf cmd)) (strLower d)

/-- Fork-bomb regex hit on the full command. -/
def hasForkBomb (cmd : ExecCommandData) : Bool :=
  FORK_BOMB_PATTERNS.any fun p => p (fullCommandOf cmd)

/-! ## Helper lemmas -/

/-- A `find?` succeeds exactly when `any` does. -/
lemma find?_isSome_eq_any {α : Type} (p : α → Bool) (l : List α) :
    (l.find? p).isSome = l.any p := by
  induction l with
  | nil => rfl
  | cons x xs ih =>
      cases hx : p x with
      | true => simp [List.find?_cons_of_pos _ hx, hx]
      | false =>
          have hneg : ¬p x = true := by simp [hx]
          simp [List.find?_cons_of_neg _ hneg, hx, ih]

/-- A `find?` fails exactly when `any` does. -/
lemma find?_eq_none_of_any_eq_false {α : Type} {p : α → Bool} {l : List α}
    (h : l.any p = false) : l.find? p = none := by
  have := find?_isSome_eq_any p l
  rw [h] at this
  exact Option.not_isSome_iff_eq_none.mp (by simp [this])

/-- Critical fact about `analyzeExecCommand`: a dangerous-substring or
fork-bomb hit forces `critical`, `should_block`, and the
`DANGEROUS_COMMAND` tag, whatever the exec capability. -/
lemma analyzeExecCommand_critical (cmd : ExecCommandData) (ea : Bool)
    (h : hasDangerousCommand cmd = true ∨ hasForkBomb cmd = true) :
    (analyzeExecCommand cmd ea).risk_level = .critical ∧
    (analyzeExecCommand cmd ea).should_block = true ∧
    "DANGEROUS_COMMAND" ∈ (analyzeExecCommand cmd ea).risk_tags := by
  rw [hasDangerousCommand, hasForkBomb] at h
  by_cases hf : (FORK_BOMB_PATTERNS.any fun p => p (fullCommandOf cmd)) = true
  · simp [analyzeExecCommand, hf]
  · have hf0 : (FORK_BOMB_PATTERNS.any fun p => p (fullCommandOf cmd)) = false := by
      revert hf; cases FORK_BOMB_PATTERNS.any fun p => p (fullCommandOf cmd) <;> simp
    have hd : (DANGEROUS_COMMANDS.any fun d =>
        strContains (strLower (fullCommandOf cmd)) (strLower d)) = true :=
      h.resolve_right hf
    have hsome : (DANGEROUS_COMMANDS.find? fun d =>
        strContains (strLower (fullCommandOf cmd)) (strLower d)).isSome = true := by
      rw [find?_isSome_eq_any, hd]
    simp [analyzeExecCommand, hf0, hsome]

/-! ## C1 — dangerous-command dominance -/

/-- C1: for every exec_command envelope whose full command (lowercased)
contains a dangerous substring or matches a fork-bomb pattern,
`ActionScanner.decide` returns `deny` with risk level `critical` and the
`DANGEROUS_COMMAND` risk tag, for any capabilities (hence any trust level)
and any context. -/
theorem exec_dangerous_command_dominance (cmd : ExecCommandData)
    (caps : CapabilityModel) (userPresent : Bool) (intel : GoPlusOutcome)
    (h : hasDangerousCommand cmd = true ∨ hasForkBomb cmd = true) :
    (ActionScanner.decide caps userPresent intel (.execCommand cmd)).decision
        = .deny ∧
    (ActionScanner.decide caps userPresent intel
        (.execCommand cmd)).risk_level = .critical ∧
    "DANGEROUS_COMMAND" ∈ (ActionScanner.decide caps userPresent intel
        (.execCommand cmd)).risk_tags := by
  obtain ⟨h1, h2, h3⟩ := analyzeExecCommand_critical cmd (caps.exec == .allow) h
  simp [ActionScanner.decide, ActionScanner.handleExecCommand, h1, h2, h3]

/-- Witness for C1: `rm -rf /` under the `none` capability preset. -/
theorem exec_dangerous_command_dominance_witness :
    hasDangerousCommand rmrfCmd = true ∧
    ((ActionScanner.decide nonePresetCaps true {} (.execCommand rmrfCmd)).decision
        = .deny ∧
     (ActionScanner.decide nonePresetCaps true {}
        (.execCommand rmrfCmd)).risk_level = .critical ∧
     "DANGEROUS_COMMAND" ∈ (ActionScanner.decide nonePresetCaps true {}
        (.execCommand rmrfCmd)).risk_tags) :=
  ⟨by decide, exec_dangerous_command_dominance rmrfCmd nonePresetCaps true {}
    (Or.inl (by decide))⟩

/-! ## C4 — safe-command allowlist -/

/-- Safe-branch fact about `analyzeExecCommand`: with no shell
metacharacter, no sensitive-command substring, a safe prefix, and no
dangerous/fork-bomb hit, the detector returns the clean low result. -/
lemma analyzeExecCommand_safe (cmd : ExecCommandData) (ea : Bool)
    (h1 : hasShellMetachar (fullCommandOf cmd) = false)
    (h2 : hasSensitiveCommand (strLower (fullCommandOf cmd)) = false)
    (h3 : isSafeCommand (strLower (fullCommandOf cmd)) = true)
    (h4 : hasForkBomb cmd = false)
    (h5 : hasDangerousCommand cmd = false) :
    analyzeExecCommand cmd ea =
      { risk_level := .low, risk_tags := [], evidence := [],
        should_block := false, block_reason := none } := by
  rw [hasForkBomb] at h4
  rw [hasDangerousCommand] at h5
  have hnone := find?_eq_none_of_any_eq_false h5
  simp [analyzeExecCommand, h1, h2, h3, h4, hnone]

/-- Counterexample to C4 as stated: `which mkfs` has no shell
metacharacter, no sensitive-command substring, and starts with the safe
prefix `which`, yet the detector reports `critical` and the scanner denies
it even with exec allowed — the claim omits the dangerous-substring
precondition. -/
theorem safe_prefix_not_sufficient_counterexample :
    hasShellMetachar (fullCommandOf whichMkfsCmd) = false ∧
    hasSensitiveCommand (strLower (fullCommandOf whichMkfsCmd)) = false ∧
    isSafeCommand (strLower (fullCommandOf whichMkfsCmd)) = true ∧
    (analyzeExecCommand whichMkfsCmd true).risk_level = .critical ∧
    (ActionScanner.decide allowExecCaps true {}
      (.execCommand whichMkfsCmd)).decision = .deny := by decide

/-- C4 (amended): for every exec_command with no shell metacharacter, no
sensitive-command substring, a safe-command prefix, and additionally no
dangerous substring and no fork-bomb match, the detector returns the
clean low/unblocked result and `decide` allows — even when the exec
capability is deny. -/
theorem safe_command_allowlist (cmd : ExecCommandData)
    (caps : CapabilityModel) (userPresent : Bool) (intel : GoPlusOutcome)
    (h1 : hasShellMetachar (fullCommandOf cmd) = false)
    (h2 : hasSensitiveCommand (strLower (fullCommandOf cmd)) = false)
    (h3 : isSafeCommand (strLower (fullCommandOf cmd)) = true)
    (h4 : hasForkBomb cmd = false)
    (h5 : hasDangerousCommand cmd = false) :
    analyzeExecCommand cmd (caps.exec == .allow) =
      { risk_level := .low, risk_tags := [], evidence := [],
        should_block := false, block_reason := none } ∧
    (ActionScanner.decide caps userPresent intel
      (.execCommand cmd)).decision = .allow := by
  have ha := analyzeExecCommand_safe cmd (caps.exec == .allow) h1 h2 h3 h4 h5
  exact ⟨ha, by simp [ActionScanner.decide, ActionScanner.handleExecCommand, ha]⟩

/-- Witness for C4 (amended): `git status` with exec denied is allowed. -/
theorem safe_command_allowlist_witness :
    (hasShellMetachar (fullCommandOf gitStatusCmd) = false ∧
     hasSensitiveCommand (strLower (fullCommandOf gitStatusCmd)) = false ∧
     isSafeCommand (strLower (fullCommandOf gitStatusCmd)) = true ∧
     hasForkBomb gitStatusCmd = false ∧
     hasDangerousCommand gitStatusCmd = false) ∧
    (ActionScanner.decide nonePresetCaps true {}
      (.execCommand gitStatusCmd)).decision = .allow :=
  ⟨⟨by decide, by decide, by decide, by decide, by decide⟩,
   (safe_command_allowlist gitStatusCmd nonePresetCaps true {}
     (by decide) (by decide) (by decide) (by decide) (by decide)).2⟩

/-! ## C10 — sensitive substrings override the safe list -/

/-- C10: `npm install dotenv` starts with the safe prefix `npm install`,
but the bare sensitive substring `env` (inside `dotenv`) excludes it from
the safe allowlist: the detector tags `SENSITIVE_DATA_ACCESS`, lifts the
risk to `high`, and with exec denied the command is blocked (the scanner
returns `confirm`, not `allow`). -/
theorem exec_sensitive_substring_blocks_npm_dotenv :
    strContains (strLower (fullCommandOf npmDotenvCmd)) "env" = true ∧
    isSafeCommand (strLower (fullCommandOf npmDotenvCmd)) = true ∧
    hasSensitiveCommand (strLower (fullCommandOf npmDotenvCmd)) = true ∧
    (analyzeExecCommand npmDotenvCmd false).risk_level = .high ∧
    (analyzeExecCommand npmDotenvCmd false).risk_tags
      = ["SENSITIVE_DATA_ACCESS"] ∧
    (analyzeExecCommand npmDotenvCmd false).should_block = true ∧
    (ActionScanner.decide nonePresetCaps true {}
      (.execCommand npmDotenvCmd)).decision = .confirm := by decide

/-! ## C5 — protection-level verdict monotonicity -/

/-- C5: for every scanner `(decision, risk_level)` pair, the hook verdict
computed from `shouldDenyAtLevel`/`shouldAskAtLevel` is monotone in the
protection level under the order `deny < ask < allow`:
strict ⊑ balanced ⊑ permissive. -/
theorem protection_level_verdict_monotone :
    ∀ (dec : Decision) (risk : RiskLevel),
      verdictRank (verdictAtLevel "strict" dec risk) ≤
        verdictRank (verdictAtLevel "balanced" dec risk) ∧
      verdictRank (verdictAtLevel "balanced" dec risk) ≤
        verdictRank (verdictAtLevel "permissive" dec risk) := by
  intro dec risk
  cases dec <;> cases risk <;> exact ⟨by decide, by decide⟩

/-! ## C3 — secret-in-body dominance -/

/-- A priority-≥90 secret in the body always puts `CRITICAL_SECRET_EXFIL`
in the network analysis tags (the body scan does not consult the host or
the allowlist). -/
lemma analyzeNetworkRequest_critical_tag (req : NetworkRequestData)
    (allowlist : List String) (h1 : req.hostValid = true)
    (h2 : bodyHasCriticalSecret req.body_preview = true) :
    "CRITICAL_SECRET_EXFIL" ∈ (analyzeNetworkRequest req allowlist).risk_tags := by
  simp [analyzeNetworkRequest, h1, h2]

/-- C3: for every network_request with a parseable host whose body preview
contains a priority-≥90 secret pattern, `ActionScanner.decide` returns
`deny` with risk level `critical` and the `CRITICAL_SECRET_EXFIL` tag,
regardless of the host and of the network allowlist. -/
theorem network_secret_in_body_dominance (req : NetworkRequestData)
    (caps : CapabilityModel) (userPresent : Bool) (intel : GoPlusOutcome)
    (h1 : req.hostValid = true)
    (h2 : bodyHasCriticalSecret req.body_preview = true) :
    (ActionScanner.decide caps userPresent intel
      (.networkRequest req)).decision = .deny ∧
    (ActionScanner.decide caps userPresent intel
      (.networkRequest req)).risk_level = .critical ∧
    "CRITICAL_SECRET_EXFIL" ∈ (ActionScanner.decide caps userPresent intel
      (.networkRequest req)).risk_tags := by
  have hm := analyzeNetworkRequest_critical_tag req caps.network_allowlist h1 h2
  simp only [ActionScanner.decide, ActionScanner.handleNetworkRequest]
  rw [if_pos hm]
  exact ⟨rfl, rfl, hm⟩

/-- Witness for C3: a POST to `example.com` with a `0x`+64-hex body under
the `none` preset. -/
theorem network_secret_in_body_dominance_witness :
    privKeyReq.hostValid = true ∧
    bodyHasCriticalSecret privKeyReq.body_preview = true ∧
    ((ActionScanner.decide nonePresetCaps true {}
        (.networkRequest privKeyReq)).decision = .deny ∧
     (ActionScanner.decide nonePresetCaps true {}
        (.networkRequest privKeyReq)).risk_level = .critical ∧
     "CRITICAL_SECRET_EXFIL" ∈ (ActionScanner.decide nonePresetCaps true {}
        (.networkRequest privKeyReq)).risk_tags) :=
  ⟨by decide, by decide,
   network_secret_in_body_dominance privKeyReq nonePresetCaps true {}
     (by decide) (by decide)⟩

/-! ## C2 — where the sensitive-path short-circuit lives -/

/-- Counterexample to C2 as stated: `ActionScanner.decide` itself performs
no sensitive-path short-circuit — a write to `./src/.env` (a sensitive
path) under a `./**` filesystem allowlist is allowed by `decide` with no
`SENSITIVE_PATH` tag. -/
theorem decide_no_sensitive_short_circuit_counterexample :
    isSensitivePath "./src/.env" = true ∧
    (ActionScanner.decide projectWideCaps true {}
      (.writeFile "./src/.env")).decision = .allow ∧
    (ActionScanner.decide projectWideCaps true {}
      (.writeFile "./src/.env")).risk_tags = [] := by decide

/-- C2 (amended): the sensitive-path short-circuit is performed by the
hook engine `evaluateHook` before the scanner is consulted, not by
`ActionScanner.decide`: for every pre-tool write_file input with a
sensitive path, the hook emits `{deny\x2fask, critical, [SENSITIVE_PATH]}`
and its result does not depend on the scanner's decision at all.
(`decide` itself routes write_file to the file detector, which a matching
allowlist such as `./**` makes allow — see the counterexample.) -/
theorem sensitive_path_short_circuit_in_hook (inp : HookEvalIn)
    (dr : Option PolicyDecision)
    (h1 : inp.eventType = .pre)
    (h2 : inp.actionType = some "write_file")
    (h3 : isSensitivePath inp.filePath = true) :
    (evaluateHook inp).1.riskTags = ["SENSITIVE_PATH"] ∧
    (evaluateHook inp).1.riskLevel = some .critical ∧
    ¬(evaluateHook inp).1.decision = .allow ∧
    evaluateHook { inp with decideResult := dr } = evaluateHook inp := by
  obtain ⟨et, aty, fp, sk, lv, dr0, pol⟩ := inp
  simp only at h1 h2 h3
  subst h1
  subst h2
  simp only [evaluateHook, h3]
  by_cases hp : (lv == "permissive" && sk.isNone) = true <;> simp [hp]

/-- Witness for C2 (amended): the balanced-level `.env` write. -/
theorem sensitive_path_short_circuit_in_hook_witness :
    balancedSensitiveWriteInput.eventType = .pre ∧
    balancedSensitiveWriteInput.actionType = some "write_file" ∧
    isSensitivePath balancedSensitiveWriteInput.filePath = true ∧
    ((evaluateHook balancedSensitiveWriteInput).1.riskTags
        = ["SENSITIVE_PATH"] ∧
     (evaluateHook balancedSensitiveWriteInput).1.riskLevel
        = some .critical ∧
     ¬(evaluateHook balancedSensitiveWriteInput).1.decision = .allow ∧
     evaluateHook { balancedSensitiveWriteInput with decideResult := none }
        = evaluateHook balancedSensitiveWriteInput) :=
  ⟨rfl, rfl, by decide,
   sensitive_path_short_circuit_in_hook balancedSensitiveWriteInput none
     rfl rfl (by decide)⟩

/-! ## C7 — sensitive-path write verdict by protection level -/

/-- C7: a pre-tool write_file with a sensitive path is denied by
`evaluateHook` under strict and balanced; under permissive the verdict is
`ask` exactly when no initiating skill is attributed (and `deny` when one
is). -/
theorem sensitive_write_verdict_by_level (inp : HookEvalIn)
    (h1 : inp.eventType = .pre)
    (h2 : inp.actionType = some "write_file")
    (h3 : isSensitivePath inp.filePath = true) :
    ((inp.level = "strict" ∨ inp.level = "balanced") →
      (evaluateHook inp).1.decision = .deny) ∧
    (inp.level = "permissive" →
      (((evaluateHook inp).1.decision = .ask ↔ inp.initiatingSkill = none) ∧
       (inp.initiatingSkill ≠ none →
         (evaluateHook inp).1.decision = .deny))) := by
  obtain ⟨et, aty, fp, sk, lv, dr0, pol⟩ := inp
  simp only at h1 h2 h3
  subst h1
  subst h2
  constructor
  · rintro (hl | hl) <;> subst hl <;>
      cases sk <;> simp [evaluateHook, h3]
  · intro hl
    subst hl
    cases sk <;> simp [evaluateHook, h3]

/-- Witness for C7: the strict-level `.env` write is denied. -/
theorem sensitive_write_verdict_by_level_witness :
    strictSensitiveWriteInput.eventType = .pre ∧
    strictSensitiveWriteInput.actionType = some "write_file" ∧
    isSensitivePath strictSensitiveWriteInput.filePath = true ∧
    (evaluateHook strictSensitiveWriteInput).1.decision = .deny :=
  ⟨rfl, rfl, by decide,
   (sensitive_write_verdict_by_level strictSensitiveWriteInput rfl rfl
     (by decide)).1 (Or.inl rfl)⟩

/-! ## C6 — engine errors fail open, not closed -/

/-- Counterexample to C6 as stated: when the scanner's `decide` throws, the
hook result is `allow` with no tags — not a `deny` carrying
`ENGINE_ERROR`. -/
theorem engine_error_denies_counterexample :
    (evaluateHook engineErrorInput).1.decision = .allow ∧
    ¬(evaluateHook engineErrorInput).1.decision = .deny ∧
    (evaluateHook engineErrorInput).1.riskTags = [] := by decide

/-- C6 (amended): when the decision engine's evaluation throws internally,
`evaluateHook` fails open — the hook result is `allow` — while the audit
log records an entry with decision `error` and tag `ENGINE_ERROR`; no
stack details are surfaced (the result carries no reason and no tags). -/
theorem engine_error_fails_open (inp : HookEvalIn) (t : String)
    (h1 : inp.eventType = .pre)
    (h2 : inp.actionType = some t)
    (h3 : (t == "write_file" && isSensitivePath inp.filePath) = false)
    (h4 : inp.decideResult = none) :
    (evaluateHook inp).1 = { decision := .allow } ∧
    (evaluateHook inp).2 = [⟨"error", .low, ["ENGINE_ERROR"]⟩] := by
  obtain ⟨et, aty, fp, sk, lv, dr0, pol⟩ := inp
  simp only at h1 h2 h3 h4
  subst h1
  subst h2
  subst h4
  simp [evaluateHook, h3]

/-- Witness for C6 (amended): the balanced exec evaluation whose scanner
call throws. -/
theorem engine_error_fails_open_witness :
    engineErrorInput.eventType = .pre ∧
    engineErrorInput.actionType = some "exec_command" ∧
    engineErrorInput.decideResult = none ∧
    ((evaluateHook engineErrorInput).1 = { decision := .allow } ∧
     (evaluateHook engineErrorInput).2 = [⟨"error", .low, ["ENGINE_ERROR"]⟩]) :=
  ⟨rfl, rfl, rfl,
   engine_error_fails_open engineErrorInput "exec_command" rfl rfl
     (by decide) rfl⟩

/-! ## C8 — user-absent Web3 evaluations never confirm -/

/-- With the user present, the upgrade step is the identity. -/
lemma applyUserPresence_true (s : ActionScanner.W3State) (d : String) :
    ActionScanner.applyUserPresence s true d = s := by
  simp [ActionScanner.applyUserPresence]

/-- With the user absent, the upgrade step never leaves `confirm`. -/
lemma applyUserPresence_false_decision (s : ActionScanner.W3State)
    (d : String) :
    ¬(ActionScanner.applyUserPresence s false d).decision = .confirm := by
  by_cases hc : s.decision = .confirm <;>
    simp [ActionScanner.applyUserPresence, hc]

/-- With the user absent, a `confirm` state is upgraded to `deny` with
`user_not_present` evidence. -/
lemma applyUserPresence_false_of_confirm (s : ActionScanner.W3State)
    (d : String) (h : s.decision = .confirm) :
    ActionScanner.applyUserPresence s false d =
      { s with
        decision := .deny,
        evidence := s.evidence ++ [evd "user_not_present" d] } := by
  simp [ActionScanner.applyUserPresence, h]

/-- C8: for every web3_tx or web3_sign action evaluated with
`user_present = false`, `ActionScanner.decide` never returns `confirm`;
whenever the same evaluation with the user present would confirm, the
user-absent result is `deny` with `user_not_present` evidence attached. -/
theorem web3_user_absent_never_confirm (caps : CapabilityModel)
    (tx : Web3TxData) (sign : Web3SignData) (intel : GoPlusOutcome) :
    ¬(ActionScanner.decide caps false intel (.web3Tx tx)).decision
        = .confirm ∧
    ¬(ActionScanner.decide caps false intel (.web3Sign sign)).decision
        = .confirm ∧
    ((ActionScanner.decide caps true intel (.web3Tx tx)).decision = .confirm →
      (ActionScanner.decide caps false intel (.web3Tx tx)).decision = .deny ∧
      evd "user_not_present"
          "Risky transaction denied because user is not present"
        ∈ (ActionScanner.decide caps false intel (.web3Tx tx)).evidence) ∧
    ((ActionScanner.decide caps true intel (.web3Sign sign)).decision
        = .confirm →
      (ActionScanner.decide caps false intel (.web3Sign sign)).decision
        = .deny ∧
      evd "user_not_present"
          "Risky signature denied because user is not present"
        ∈ (ActionScanner.decide caps false intel (.web3Sign sign)).evidence) := by
  refine ⟨applyUserPresence_false_decision _ _,
    applyUserPresence_false_decision _ _, ?_, ?_⟩
  · intro h
    have hc : (ActionScanner.web3TxCore tx caps intel).decision = .confirm := by
      rw [← applyUserPresence_true (ActionScanner.web3TxCore tx caps intel)
        "Risky transaction denied because user is not present"]
      exact h
    have hr := applyUserPresence_false_of_confirm
      (ActionScanner.web3TxCore tx caps intel)
      "Risky transaction denied because user is not present" hc
    constructor
    · show (ActionScanner.applyUserPresence _ false _).decision = .deny
      rw [hr]
    · show _ ∈ (ActionScanner.applyUserPresence _ false _).evidence
      rw [hr]
      simp
  · intro h
    have hc : (ActionScanner.web3SignCore sign caps intel).decision
        = .confirm := by
      rw [← applyUserPresence_true (ActionScanner.web3SignCore sign caps intel)
        "Risky signature denied because user is not present"]
      exact h
    have hr := applyUserPresence_false_of_confirm
      (ActionScanner.web3SignCore sign caps intel)
      "Risky signature denied because user is not present" hc
    constructor
    · show (ActionScanner.applyUserPresence _ false _).decision = .deny
      rw [hr]
    · show _ ∈ (ActionScanner.applyUserPresence _ false _).evidence
      rw [hr]
      simp

/-- Witness for C8: a `confirm_high_risk` chain-1 transaction to a
honeypot-related address confirms with the user present and is denied
with `user_not_present` evidence when the user is absent. -/
theorem web3_user_absent_never_confirm_witness :
    (ActionScanner.decide web3ConfirmCaps true honeypotIntel
        (.web3Tx chain1Tx)).decision = .confirm ∧
    ((ActionScanner.decide web3ConfirmCaps false honeypotIntel
        (.web3Tx chain1Tx)).decision = .deny ∧
      evd "user_not_present"
          "Risky transaction denied because user is not present"
        ∈ (ActionScanner.decide web3ConfirmCaps false honeypotIntel
            (.web3Tx chain1Tx)).evidence) :=
  ⟨by decide,
   (web3_user_absent_never_confirm web3ConfirmCaps chain1Tx permitSign
     honeypotIntel).2.2.1 (by decide)⟩

/-! ## C9 — registry record-key uniqueness -/

/-- Every key of `upsert l r` is a key of `l` or the key of `r`. -/
lemma keysOf_upsert_subset (l : List TrustRecord) (r : TrustRecord) :
    ∀ k ∈ RegistryStorage.keysOf (RegistryStorage.upsert l r),
      k ∈ RegistryStorage.keysOf l ∨ k = r.record_key := by
  induction l with
  | nil =>
      intro k hk
      right
      simpa [RegistryStorage.upsert, RegistryStorage.keysOf] using hk
  | cons x xs ih =>
      intro k hk
      by_cases he : x.record_key = r.record_key
      · rw [show RegistryStorage.upsert (x :: xs) r = r :: xs by
          simp [RegistryStorage.upsert, he]] at hk
        simp only [RegistryStorage.keysOf, List.map_cons, List.mem_cons] at hk ⊢
        rcases hk with hk | hk
        · exact Or.inr hk
        · exact Or.inl (Or.inr hk)
      · rw [show RegistryStorage.upsert (x :: xs) r
            = x :: RegistryStorage.upsert xs r by
          simp [RegistryStorage.upsert, he]] at hk
        simp only [RegistryStorage.keysOf, List.map_cons, List.mem_cons] at hk ⊢
        rcases hk with hk | hk
        · exact Or.inl (Or.inl hk)
        · rcases ih k hk with h' | h'
          · exact Or.inl (Or.inr (by
              simpa [RegistryStorage.keysOf] using h'))
          · exact Or.inr h'

/-- `upsert` preserves key uniqueness. -/
lemma keysNodup_upsert (l : List TrustRecord) (r : TrustRecord)
    (h : RegistryStorage.keysNodup l) :
    RegistryStorage.keysNodup (RegistryStorage.upsert l r) := by
  induction l with
  | nil =>
      simp [RegistryStorage.upsert, RegistryStorage.keysNodup,
        RegistryStorage.keysOf]
  | cons x xs ih =>
      obtain ⟨hx, hxs⟩ :
          x.record_key ∉ RegistryStorage.keysOf xs ∧
            (RegistryStorage.keysOf xs).Nodup := by
        simpa [RegistryStorage.keysNodup, RegistryStorage.keysOf] using h
      show (RegistryStorage.keysOf
        (RegistryStorage.upsert (x :: xs) r)).Nodup
      by_cases he : x.record_key = r.record_key
      · rw [show RegistryStorage.upsert (x :: xs) r = r :: xs by
          simp [RegistryStorage.upsert, he]]
        simp only [RegistryStorage.keysOf, List.map_cons, List.nodup_cons]
        constructor
        · rw [← he]
          simpa [RegistryStorage.keysOf] using hx
        · simpa [RegistryStorage.keysOf] using hxs
      · rw [show RegistryStorage.upsert (x :: xs) r
            = x :: RegistryStorage.upsert xs r by
          simp [RegistryStorage.upsert, he]]
        simp only [RegistryStorage.keysOf, List.map_cons, List.nodup_cons]
        constructor
        · intro hmem
          rcases keysOf_upsert_subset xs r x.record_key
              (by simpa [RegistryStorage.keysOf] using hmem) with hin | heq
          · exact hx (by simpa [RegistryStorage.keysOf] using hin)
          · exact he heq
        · have hrec := ih (show RegistryStorage.keysNodup xs by
            simpa [RegistryStorage.keysNodup, RegistryStorage.keysOf]
              using hxs)
          simpa [RegistryStorage.keysNodup, RegistryStorage.keysOf]
            using hrec

/-- When the key already exists, `upsert` replaces in place: the store
keeps its length (no duplicate is appended). -/
lemma upsert_length_of_mem (l : List TrustRecord) (r : TrustRecord)
    (h : r.record_key ∈ RegistryStorage.keysOf l) :
    (RegistryStorage.upsert l r).length = l.length := by
  induction l with
  | nil => simp [RegistryStorage.keysOf] at h
  | cons x xs ih =>
      by_cases he : x.record_key = r.record_key
      · simp [RegistryStorage.upsert, he]
      · have hx : r.record_key ∈ RegistryStorage.keysOf xs := by
          rcases (by simpa [RegistryStorage.keysOf] using h :
              r.record_key = x.record_key ∨
              r.record_key ∈ RegistryStorage.keysOf xs) with h' | h'
          · exact absurd h'.symm he
          · exact h'
        simp [RegistryStorage.upsert, he, ih hx]

/-- Folding `upsert` over any records from a unique-key store keeps keys
unique. -/
lemma keysNodup_foldl_upsert (rs : List TrustRecord) :
    ∀ acc : List TrustRecord, RegistryStorage.keysNodup acc →
      RegistryStorage.keysNodup (rs.foldl RegistryStorage.upsert acc) := by
  induction rs with
  | nil => intro acc h; simpa using h
  | cons r rs ih =>
      intro acc h
      simpa using ih (RegistryStorage.upsert acc r) (keysNodup_upsert acc r h)

/-- C9: record-key uniqueness is an invariant of the registry store —
`upsert`, `updateStatus`, `remove` and merge-`import` all preserve it, and
`upsert` on an existing key replaces the record instead of appending a
duplicate. -/
theorem registry_record_key_uniqueness (l : List TrustRecord)
    (r : TrustRecord) (key now : String) (st : RecordStatus)
    (imported : List TrustRecord) (h : RegistryStorage.keysNodup l) :
    RegistryStorage.keysNodup (RegistryStorage.upsert l r) ∧
    (r.record_key ∈ RegistryStorage.keysOf l →
      (RegistryStorage.upsert l r).length = l.length) ∧
    RegistryStorage.keysNodup
      (RegistryStorage.updateStatus l key st now).1 ∧
    RegistryStorage.keysNodup (RegistryStorage.remove l key).1 ∧
    RegistryStorage.keysNodup (RegistryStorage.importMerge l imported) := by
  refine ⟨keysNodup_upsert l r h, upsert_length_of_mem l r, ?_, ?_, ?_⟩
  · rw [RegistryStorage.updateStatus]
    cases hf : RegistryStorage.findByKey l key with
    | none => simpa using h
    | some rec => exact keysNodup_upsert l _ h
  · rw [RegistryStorage.remove]
    exact List.Nodup.sublist
      (List.Sublist.map _ (List.filter_sublist l)) h
  · exact keysNodup_foldl_upsert (l ++ imported) []
      (by simp [RegistryStorage.keysNodup, RegistryStorage.keysOf])

/-- Witness for C9: a two-record store with distinct keys, upserting a
replacement for key `b`. -/
theorem registry_record_key_uniqueness_witness :
    RegistryStorage.keysNodup [⟨"a", .active, ""⟩, ⟨"b", .active, ""⟩] ∧
    (RegistryStorage.keysNodup
      (RegistryStorage.upsert [⟨"a", .active, ""⟩, ⟨"b", .active, ""⟩]
        ⟨"b", .revoked, "t"⟩) ∧
     (RegistryStorage.upsert [⟨"a", .active, ""⟩, ⟨"b", .active, ""⟩]
        ⟨"b", .revoked, "t"⟩).length
       = [⟨"a", .active, ""⟩, (⟨"b", .active, ""⟩ : TrustRecord)].length) :=
  ⟨by decide,
   (registry_record_key_uniqueness [⟨"a", .active, ""⟩, ⟨"b", .active, ""⟩]
       ⟨"b", .revoked, "t"⟩ "b" "t" .active [] (by decide)).1,
   (registry_record_key_uniqueness [⟨"a", .active, ""⟩, ⟨"b", .active, ""⟩]
       ⟨"b", .revoked, "t"⟩ "b" "t" .active [] (by decide)).2.1 (by decide)⟩

end AgentGuard
